import Mathlib

/-!
Verification development for the UkiyoFusion image-transformation backend.

The Python sources are shallowly embedded: pure validation functions become
Lean functions over exact rationals and integers, the route handlers and the
orchestration task become pure state transformers over explicit record types,
and Python exception flow is modelled with the Except monad (a try/except
block becomes a match on the Except value).
-/

/-- Status enumeration of a Transformation row
(backend/models: Enum of pending, processing, completed, failed). -/
inductive TStatus
  | pending
  | processing
  | completed
  | failed
  deriving DecidableEq, Repr

/-- Embeds backend/utils/validators.py, validate_generation_parameters.
Floats are modelled as exact rationals; the optional seed is an optional
integer (the Python code checks isinstance int).  Returns the (ok, message)
pair the Python function returns. -/
def validate_generation_parameters (strength guidance_scale : ℚ)
    (num_inference_steps : ℤ) (seed : Option ℤ) : Bool × String :=
  if ¬ (1/10 ≤ strength ∧ strength ≤ 1) then
    (false, "Strength must be between 0.1 and 1.0")
  else if ¬ (1 ≤ guidance_scale ∧ guidance_scale ≤ 20) then
    (false, "Guidance scale must be between 1.0 and 20.0")
  else if ¬ (10 ≤ num_inference_steps ∧ num_inference_steps ≤ 100) then
    (false, "Number of inference steps must be between 10 and 100")
  else
    match seed with
    | some s =>
      if s < 0 ∨ s > 2 ^ 32 - 1 then
        (false, "Seed must be a positive integer less than 2^32")
      else (true, "Valid parameters")
    | none => (true, "Valid parameters")

/-- The seed argument is acceptable: absent, or a non-negative integer
strictly below 2^32. -/
def seedOk : Option ℤ → Prop
  | none => True
  | some s => 0 ≤ s ∧ s < 2 ^ 32

instance : DecidablePred seedOk := by
  intro s
  cases s <;> simp [seedOk] <;> infer_instance

/-- Banned substrings of validate_prompt (backend/utils/validators.py). -/
def banned_words : List String :=
  ["nude", "naked", "nsfw", "porn", "explicit", "sexual",
   "violence", "gore", "blood", "death", "kill", "murder",
   "hate", "racist", "nazi", "terrorist"]

/-- Python str.strip: drop whitespace from both ends.  The prompt text is
embedded as its sequence of characters. -/
def pyStrip (s : List Char) : List Char :=
  ((s.dropWhile Char.isWhitespace).reverse.dropWhile Char.isWhitespace).reverse

/-- Python str.lower on a character sequence. -/
def pyLower (s : List Char) : List Char :=
  s.map Char.toLower

/-- Embeds backend/utils/validators.py, validate_prompt: empty or
whitespace-only prompts fail, over-long prompts fail, and any banned word
occurring as a case-insensitive substring fails.  The prompt is a character
sequence; the returned message is as in the source. -/
def validate_prompt (prompt : List Char) (max_length : ℕ := 1000) :
    Bool × String :=
  if pyStrip prompt = [] then (false, "Prompt cannot be empty")
  else
    let p := pyStrip prompt
    if p.length > max_length then
      (false, "Prompt too long. Maximum length is 1000 characters")
    else
      let lower := pyLower p
      match banned_words.find? (fun w => decide (w.toList <:+: lower)) with
      | some w => (false, "Prompt contains inappropriate content: " ++ w)
      | none => (true, "Valid prompt")

lemma vgp_true_iff (s g : ℚ) (n : ℤ) (sd : Option ℤ) :
    (validate_generation_parameters s g n sd).1 = true ↔
      (1/10 ≤ s ∧ s ≤ 1 ∧ 1 ≤ g ∧ g ≤ 20 ∧ 10 ≤ n ∧ n ≤ 100 ∧ seedOk sd) := by
  have h32 : (2 : ℤ) ^ 32 = 4294967296 := by norm_num
  constructor
  · intro htrue
    unfold validate_generation_parameters at htrue
    by_cases h1 : 1/10 ≤ s ∧ s ≤ 1
    · rw [if_neg (not_not_intro h1)] at htrue
      by_cases h2 : 1 ≤ g ∧ g ≤ 20
      · rw [if_neg (not_not_intro h2)] at htrue
        by_cases h3 : 10 ≤ n ∧ n ≤ 100
        · rw [if_neg (not_not_intro h3)] at htrue
          cases sd with
          | none => exact ⟨h1.1, h1.2, h2.1, h2.2, h3.1, h3.2, trivial⟩
          | some v =>
            have htrue' : (if v < 0 ∨ v > 2 ^ 32 - 1 then
                ((false : Bool), "Seed must be a positive integer less than 2^32")
              else ((true : Bool), "Valid parameters")).1 = true := htrue
            by_cases h4 : v < 0 ∨ v > 2 ^ 32 - 1
            · rw [if_pos h4] at htrue'; simp at htrue'
            · refine ⟨h1.1, h1.2, h2.1, h2.2, h3.1, h3.2, ?_, ?_⟩ <;>
                simp only [h32] at h4 ⊢ <;> omega
        · rw [if_pos h3] at htrue; simp at htrue
      · rw [if_pos h2] at htrue; simp at htrue
    · rw [if_pos h1] at htrue; simp at htrue
  · rintro ⟨a, b, c, d, e, f, hsd⟩
    unfold validate_generation_parameters
    rw [if_neg (not_not_intro ⟨a, b⟩), if_neg (not_not_intro ⟨c, d⟩),
        if_neg (not_not_intro ⟨e, f⟩)]
    cases sd with
    | none => rfl
    | some v =>
      simp only [seedOk] at hsd
      have hv : ¬ (v < 0 ∨ v > 2 ^ 32 - 1) := by
        simp only [h32] at hsd ⊢; omega
      show (if v < 0 ∨ v > 2 ^ 32 - 1 then
          ((false : Bool), "Seed must be a positive integer less than 2^32")
        else ((true : Bool), "Valid parameters")).1 = true
      rw [if_neg hv]

/-- C3: validate_generation_parameters succeeds exactly when strength lies in
[0.1, 1.0], guidance scale in [1.0, 20.0], the integer step count in
[10, 100], and the seed is absent or a non-negative integer below 2^32; it
rejects strength 0.05 and 1.01, guidance scale 0.5, steps 5 and 101, and
seed -1, and accepts the boundary values strength 0.1 and 1.0 and steps 10
and 100. -/
theorem validate_generation_parameters_characterization :
    (∀ (s g : ℚ) (n : ℤ) (sd : Option ℤ),
      (validate_generation_parameters s g n sd).1 = true ↔
        (1/10 ≤ s ∧ s ≤ 1 ∧ 1 ≤ g ∧ g ≤ 20 ∧ 10 ≤ n ∧ n ≤ 100 ∧ seedOk sd)) ∧
    (validate_generation_parameters (5/100) (15/2) 20 none).1 = false ∧
    (validate_generation_parameters (101/100) (15/2) 20 none).1 = false ∧
    (validate_generation_parameters (8/10) (1/2) 20 none).1 = false ∧
    (validate_generation_parameters (8/10) (15/2) 5 none).1 = false ∧
    (validate_generation_parameters (8/10) (15/2) 101 none).1 = false ∧
    (validate_generation_parameters (8/10) (15/2) 20 (some (-1))).1 = false ∧
    (validate_generation_parameters (1/10) (15/2) 20 none).1 = true ∧
    (validate_generation_parameters 1 (15/2) 20 none).1 = true ∧
    (validate_generation_parameters (8/10) (15/2) 10 none).1 = true ∧
    (validate_generation_parameters (8/10) (15/2) 100 none).1 = true := by
  refine ⟨vgp_true_iff, ?_, ?_, ?_, ?_, ?_, ?_, ?_, ?_, ?_, ?_⟩ <;>
    first
    | (rw [Bool.eq_false_iff]
       intro h
       have hP := (vgp_true_iff _ _ _ _).mp h
       simp only [seedOk] at hP
       norm_num at hP
       done)
    | exact (vgp_true_iff _ _ _ _).mpr (by norm_num [seedOk])

/-! ## Status lifecycle of a single Transformation record (C1)

Operations touching the status field of one Transformation row, as atomic
steps over the persisted status: upload creation (routes/transform.py,
upload_and_transform: creates the row as pending), one full run of the
orchestration task (tasks/image_processing.py, process_image_task: sets
processing unconditionally, then completed or failed), and cancellation
(routes/transform.py, cancel_transformation: overwrites pending or
processing with failed).  Celery revocation is advisory, so a task run may
still execute after a cancellation. -/

/-- Whether a task run reaches the completed commit or the failure handler. -/
inductive TaskRunOutcome
  | success
  | failure
  deriving DecidableEq, Repr

/-- One control-plane or task operation on the record. -/
inductive TraceOp
  | upload
  | runTask (o : TaskRunOutcome)
  | cancel
  deriving DecidableEq, Repr

/-- One write of the status field, tagged with whether the cancellation
endpoint performed it. -/
structure StatusWrite where
  byCancel : Bool
  status : TStatus
  deriving DecidableEq, Repr

/-- Effect of one operation on the persisted status of the record
(none = row does not exist yet), together with the list of status writes it
performs, in order.  Mirrors the source: upload inserts a pending row;
process_image_task returns early when the row is missing, otherwise writes
processing and then a terminal status; cancel_transformation writes failed
only from pending or processing and is rejected otherwise. -/
def opStep : Option TStatus → TraceOp → Option TStatus × List StatusWrite
  | none, .upload => (some .pending, [⟨false, .pending⟩])
  | some s, .upload => (some s, [])
  | none, .runTask _ => (none, [])
  | some _, .runTask .success =>
      (some .completed, [⟨false, .processing⟩, ⟨false, .completed⟩])
  | some _, .runTask .failure =>
      (some .failed, [⟨false, .processing⟩, ⟨false, .failed⟩])
  | none, .cancel => (none, [])
  | some s, .cancel =>
      if s = .pending ∨ s = .processing then (some .failed, [⟨true, .failed⟩])
      else (some s, [])

/-- All status writes performed by a sequence of operations, in order,
starting from a given persisted status. -/
def statusTrace : Option TStatus → List TraceOp → List StatusWrite
  | _, [] => []
  | s, op :: rest => (opStep s op).2 ++ statusTrace (opStep s op).1 rest

/-- A single status write is legal from the given previous status: creation
writes pending into a missing row; the monotonic transitions are
pending to processing and processing to a terminal status (rewriting the
current status unchanged is not a transition); and the only other permitted
write is the cancellation overwrite of pending or processing with failed. -/
def okWrite : Option TStatus → StatusWrite → Bool
  | none, w => !w.byCancel && (w.status = TStatus.pending)
  | some s, w =>
      (!w.byCancel && s = w.status) ||
      (!w.byCancel && s = TStatus.pending && w.status = TStatus.processing) ||
      (!w.byCancel && s = TStatus.processing &&
        (w.status = TStatus.completed || w.status = TStatus.failed)) ||
      (w.byCancel && (s = TStatus.pending || s = TStatus.processing) &&
        w.status = TStatus.failed)

/-- Every consecutive pair of status writes is legal, starting from the
given status. -/
def chainOK : Option TStatus → List StatusWrite → Bool
  | _, [] => true
  | s, w :: ws => okWrite s w && chainOK (some w.status) ws

/-- The status last written, or the starting one when nothing was written. -/
def lastStatus (s : Option TStatus) : List StatusWrite → Option TStatus
  | [] => s
  | w :: ws => lastStatus (some w.status) ws

/-- The operation is not a task run starting on a terminal record. -/
def taskStartOK : Option TStatus → TraceOp → Bool
  | some .completed, .runTask _ => false
  | some .failed, .runTask _ => false
  | _, _ => true

/-- Every task run in the sequence starts while the record is absent,
pending or processing (it never starts on a terminal record). -/
def tasksStartSafe : Option TStatus → List TraceOp → Bool
  | _, [] => true
  | s, op :: rest => taskStartOK s op && tasksStartSafe (opStep s op).1 rest

lemma chainOK_append (xs ys : List StatusWrite) (s : Option TStatus) :
    chainOK s (xs ++ ys) = (chainOK s xs && chainOK (lastStatus s xs) ys) := by
  induction xs generalizing s with
  | nil => simp [chainOK, lastStatus]
  | cons w ws ih =>
      simp [chainOK, lastStatus, ih, Bool.and_assoc]

lemma opStep_lastStatus (s : Option TStatus) (op : TraceOp) :
    (opStep s op).1 = lastStatus s (opStep s op).2 := by
  cases op with
  | upload => cases s <;> rfl
  | cancel =>
      cases s with
      | none => rfl
      | some st => cases st <;> simp [opStep, lastStatus]
  | runTask o => cases o <;> cases s <;> rfl

lemma opStep_chainOK (s : Option TStatus) (op : TraceOp)
    (h : taskStartOK s op = true) :
    chainOK s (opStep s op).2 = true := by
  cases op with
  | upload => cases s <;> simp [opStep, chainOK, okWrite]
  | cancel =>
      cases s with
      | none => rfl
      | some st => cases st <;> simp [opStep, chainOK, okWrite]
  | runTask o =>
      cases s with
      | none => cases o <;> rfl
      | some st =>
          cases o <;> cases st <;>
            simp_all [opStep, chainOK, okWrite, taskStartOK]

/-- C1 counterexample: after an upload, a cancellation (which marks the
pending record failed) and a subsequent run of the orchestration task (the
Celery revoke is only advisory, so the task can still run), the status
trace contains the write sequence pending, failed, processing, completed:
the terminal failed status is overwritten by the task, so the status field
does regress under the listed operations. -/
theorem status_regresses_after_cancel_then_run :
    chainOK none (statusTrace none
      [TraceOp.upload, TraceOp.cancel, TraceOp.runTask .success]) = false := by
  decide

/-- C1 amended: provided no orchestration task run starts once the record
is terminal (which cancellation followed by a late task run can violate),
every status write is monotonic pending to processing to completed or
failed, except the cancellation overwrite of pending or processing with
failed; in particular terminal states are never overwritten. -/
theorem status_monotone_of_tasksStartSafe (ops : List TraceOp)
    (h : tasksStartSafe none ops = true) :
    chainOK none (statusTrace none ops) = true := by
  suffices H : ∀ (ops : List TraceOp) (s : Option TStatus),
      tasksStartSafe s ops = true → chainOK s (statusTrace s ops) = true from
    H ops none h
  intro ops
  induction ops with
  | nil => intro s _; rfl
  | cons op rest ih =>
      intro s hsafe
      rw [tasksStartSafe, Bool.and_eq_true] at hsafe
      rw [statusTrace, chainOK_append, ← opStep_lastStatus,
          opStep_chainOK s op hsafe.1, ih _ hsafe.2, Bool.and_self]

/-- Witness for the amended C1 theorem at a concrete operation sequence:
one upload followed by one successful task run is safe and yields a
monotonic write chain. -/
theorem status_monotone_witness :
    tasksStartSafe none [TraceOp.upload, TraceOp.runTask .success] = true ∧
    chainOK none (statusTrace none
      [TraceOp.upload, TraceOp.runTask .success]) = true :=
  ⟨by decide, status_monotone_of_tasksStartSafe _ (by decide)⟩

/-! ## Persistence rows and the route layer (C6, C7, C8)

The relational rows are embedded as records, a table as a list of rows, and
each route handler as a pure function from the table (plus the
authenticated user and request data) to an HTTP status code and the updated
table.  Queries filter_by(...).first() become List.find?. -/

/-- The fields of a Transformation row the route layer reads and writes
(backend/models, class Transformation). -/
structure TransRow where
  id : ℕ
  user_id : ℕ
  task_id : ℕ
  status : TStatus
  error_message : Option String
  result_url : Option String
  deriving DecidableEq, Repr

/-- The fields of a GalleryItem row the gallery routes read and write
(backend/models, class GalleryItem). -/
structure GalleryRow where
  id : ℕ
  user_id : ℕ
  transformation_id : ℕ
  title : String
  description : String
  tags : String
  is_public : Bool
  share_token : Option String
  deriving DecidableEq, Repr

/-- The tables the gallery routes touch. -/
structure GalleryState where
  transformations : List TransRow
  items : List GalleryRow
  deriving DecidableEq, Repr

/-- JSON body of POST /gallery (routes/gallery.py, create_gallery_item):
data.get calls on the parsed body. -/
structure CreateGalleryReq where
  transformation_id : Option ℕ
  title : String
  description : String
  tags : List String
  is_public : Bool
  deriving DecidableEq, Repr

/-- JSON body of PUT /gallery/id (routes/gallery.py, update_gallery_item):
each field is present or absent. -/
structure UpdateGalleryReq where
  title : Option String
  description : Option String
  tags : Option (List String)
  is_public : Option Bool
  deriving DecidableEq, Repr

/-- Embeds routes/gallery.py, create_gallery_item.  freshId is the
generated primary key and freshToken the secrets.token_urlsafe value used
when the item is public.  Returns the HTTP status code and the updated
state. -/
def create_gallery_item (st : GalleryState) (current_user_id : ℕ)
    (data : CreateGalleryReq) (freshId : ℕ) (freshToken : String) :
    ℕ × GalleryState :=
  match data.transformation_id with
  | none => (400, st)
  | some tid =>
    if data.title = "" then (400, st)
    else
      match st.transformations.find?
          (fun t => t.id == tid && t.user_id == current_user_id) with
      | none => (404, st)
      | some t =>
        if t.status ≠ TStatus.completed then (400, st)
        else if (st.items.find? (fun it =>
            it.transformation_id == t.id && it.user_id == current_user_id)).isSome
        then (409, st)
        else
          let item : GalleryRow :=
            { id := freshId
              user_id := current_user_id
              transformation_id := t.id
              title := data.title.trim
              description := data.description.trim
              tags := String.intercalate ","
                ((data.tags.map String.trim).filter (fun x => x ≠ ""))
              is_public := data.is_public
              share_token := if data.is_public then some freshToken else none }
          (201, { st with items := st.items ++ [item] })

/-- Field updates applied to one GalleryRow by update_gallery_item,
including the share-token maintenance tied to is_public. -/
def applyGalleryUpdate (it : GalleryRow) (data : UpdateGalleryReq)
    (freshToken : String) : GalleryRow :=
  let it := match data.title with
    | some t => { it with title := t.trim }
    | none => it
  let it := match data.description with
    | some d => { it with description := d.trim }
    | none => it
  let it := match data.tags with
    | some ts => { it with tags := (String.intercalate ","
        ((ts.map String.trim).filter (fun x => x ≠ ""))) }
    | none => it
  match data.is_public with
  | some b =>
      let it := { it with is_public := b }
      if b ∧ it.share_token = none then { it with share_token := some freshToken }
      else if ¬ b then { it with share_token := none }
      else it
  | none => it

/-- Embeds routes/gallery.py, update_gallery_item: find the item owned by
the user, apply the requested field updates, keep the share token in step
with is_public. -/
def update_gallery_item (st : GalleryState) (current_user_id : ℕ)
    (gallery_item_id : ℕ) (data : UpdateGalleryReq) (freshToken : String) :
    ℕ × GalleryState :=
  match st.items.find?
      (fun it => it.id == gallery_item_id && it.user_id == current_user_id) with
  | none => (404, st)
  | some _ =>
      (200, { st with items := st.items.map (fun it =>
        if it.id == gallery_item_id && it.user_id == current_user_id then
          applyGalleryUpdate it data freshToken
        else it) })

/-- Embeds routes/transform.py, cancel_transformation: look up the record
by task id and owner; reject with 400 unless it is pending or processing;
otherwise revoke the Celery task and overwrite status with failed and the
error message with "Cancelled by user". -/
def cancel_transformation (db : List TransRow) (current_user_id : ℕ)
    (task_id : ℕ) : ℕ × List TransRow :=
  match db.find? (fun t => t.task_id == task_id && t.user_id == current_user_id) with
  | none => (404, db)
  | some t =>
    if t.status ≠ TStatus.pending ∧ t.status ≠ TStatus.processing then (400, db)
    else
      (200, db.map (fun r =>
        if r.task_id == task_id && r.user_id == current_user_id then
          { r with status := TStatus.failed,
                   error_message := some "Cancelled by user" }
        else r))

lemma find?_map_cond (l : List TransRow) (p : TransRow → Bool)
    (f : TransRow → TransRow) (hp : ∀ r, p (f r) = p r) :
    (l.map (fun r => if p r then f r else r)).find? p = (l.find? p).map f := by
  induction l with
  | nil => rfl
  | cons a l ih =>
      simp only [List.map]
      by_cases h : p a = true
      · rw [if_pos h, List.find?_cons_of_pos _ ((hp a).trans h),
            List.find?_cons_of_pos _ h]
        rfl
      · rw [if_neg h, List.find?_cons_of_neg _ (by simpa using h),
            List.find?_cons_of_neg _ (by simpa using h), ih]

/-- C6: cancelling a Transformation found in a terminal status (completed
or failed) is rejected with 400 and leaves the table unchanged, while
cancelling one found pending or processing answers 200 and overwrites its
status with failed and its error message with "Cancelled by user". -/
theorem cancel_transformation_spec (db : List TransRow) (uid tid : ℕ)
    (t : TransRow)
    (hfind : db.find? (fun r => r.task_id == tid && r.user_id == uid) = some t) :
    ((t.status = TStatus.completed ∨ t.status = TStatus.failed) →
      cancel_transformation db uid tid = (400, db)) ∧
    ((t.status = TStatus.pending ∨ t.status = TStatus.processing) →
      (cancel_transformation db uid tid).1 = 200 ∧
      (cancel_transformation db uid tid).2.find?
          (fun r => r.task_id == tid && r.user_id == uid) =
        some { t with status := TStatus.failed,
                      error_message := some "Cancelled by user" }) := by
  have hred : cancel_transformation db uid tid =
      if t.status ≠ TStatus.pending ∧ t.status ≠ TStatus.processing then (400, db)
      else (200, db.map (fun r =>
        if r.task_id == tid && r.user_id == uid then
          { r with status := TStatus.failed,
                   error_message := some "Cancelled by user" }
        else r)) := by
    unfold cancel_transformation
    rw [hfind]
  constructor
  · intro hterm
    rw [hred, if_pos]
    rcases hterm with h | h <;> rw [h] <;> exact ⟨by simp, by simp⟩
  · intro hact
    have hcond : ¬ (t.status ≠ TStatus.pending ∧ t.status ≠ TStatus.processing) := by
      rcases hact with h | h <;> rw [h] <;> simp
    rw [hred, if_neg hcond]
    refine ⟨rfl, ?_⟩
    have hm := find?_map_cond db (fun x => x.task_id == tid && x.user_id == uid)
      (fun r => { r with status := TStatus.failed,
                         error_message := some "Cancelled by user" })
      (fun r => rfl)
    rw [hfind] at hm
    exact hm.trans rfl

/-- Witness for the C6 theorem: a one-row table holding a pending record
owned by user 1 with task id 5; cancellation answers 200 and rewrites the
row to failed with the cancellation message. -/
theorem cancel_transformation_spec_witness :
    (cancel_transformation
        [{ id := 0, user_id := 1, task_id := 5, status := TStatus.pending,
           error_message := none, result_url := none }] 1 5).1 = 200 ∧
    (cancel_transformation
        [{ id := 0, user_id := 1, task_id := 5, status := TStatus.pending,
           error_message := none, result_url := none }] 1 5).2.find?
        (fun r => r.task_id == 5 && r.user_id == 1) =
      some { id := 0, user_id := 1, task_id := 5, status := TStatus.failed,
             error_message := some "Cancelled by user", result_url := none } :=
  (cancel_transformation_spec _ 1 5
    { id := 0, user_id := 1, task_id := 5, status := TStatus.pending,
      error_message := none, result_url := none }
    (by decide)).2 (Or.inl rfl)

/-- At most one GalleryItem per (user, transformation) pair. -/
def atMostOnePerPair (st : GalleryState) : Prop :=
  List.Pairwise (fun a b =>
    ¬ (a.user_id = b.user_id ∧ a.transformation_id = b.transformation_id))
    st.items

lemma pairwise_pair_append (l : List GalleryRow) (ni : GalleryRow)
    (h : List.Pairwise (fun a b =>
      ¬ (a.user_id = b.user_id ∧ a.transformation_id = b.transformation_id)) l)
    (hnew : ∀ a ∈ l,
      ¬ (a.user_id = ni.user_id ∧ a.transformation_id = ni.transformation_id)) :
    List.Pairwise (fun a b =>
      ¬ (a.user_id = b.user_id ∧ a.transformation_id = b.transformation_id))
      (l ++ [ni]) := by
  rw [List.pairwise_append]
  refine ⟨h, List.pairwise_singleton _ _, ?_⟩
  intro a ha b hb
  rw [List.mem_singleton] at hb
  subst hb
  exact hnew a ha

/-- C7: when the user already owns a gallery item for the requested
transformation and the request would otherwise be accepted (the
transformation exists, belongs to the user and is completed, and the
request carries a title), creation answers 409 and leaves the state
unchanged; and every creation preserves uniqueness of the
(user, transformation) pair across the whole table. -/
theorem create_gallery_item_conflict (st : GalleryState) (uid fid : ℕ)
    (data : CreateGalleryReq) (tok : String) :
    (∀ tid t, data.transformation_id = some tid → data.title ≠ "" →
      st.transformations.find? (fun r => r.id == tid && r.user_id == uid) = some t →
      t.status = TStatus.completed →
      (∃ it ∈ st.items, it.transformation_id = t.id ∧ it.user_id = uid) →
      create_gallery_item st uid data fid tok = (409, st)) ∧
    (atMostOnePerPair st →
      atMostOnePerPair (create_gallery_item st uid data fid tok).2) := by
  constructor
  · intro tid t htid htitle hfind hstatus hdup
    have hs : (st.items.find? (fun it =>
        it.transformation_id == t.id && it.user_id == uid)).isSome = true := by
      rw [List.find?_isSome]
      obtain ⟨it, hmem, h1, h2⟩ := hdup
      exact ⟨it, hmem, by simp [h1, h2]⟩
    simp [create_gallery_item, htid, htitle, hfind, hstatus, hs]
  · intro hap
    rcases htid : data.transformation_id with _ | tid
    · simpa [create_gallery_item, htid] using hap
    by_cases htitle : data.title = ""
    · simpa [create_gallery_item, htid, htitle] using hap
    rcases hfind : st.transformations.find?
        (fun r => r.id == tid && r.user_id == uid) with _ | t
    · simpa [create_gallery_item, htid, htitle, hfind] using hap
    by_cases hstatus : t.status = TStatus.completed
    swap
    · simpa [create_gallery_item, htid, htitle, hfind, hstatus] using hap
    rcases hdup : st.items.find?
        (fun it => it.transformation_id == t.id && it.user_id == uid) with _ | it2
    swap
    · simpa [create_gallery_item, htid, htitle, hfind, hstatus, hdup] using hap
    have hnew : ∀ a ∈ st.items,
        ¬ (a.user_id = uid ∧ a.transformation_id = t.id) := by
      intro a ha hcontra
      have := List.find?_eq_none.mp hdup a ha
      simp only [Bool.and_eq_true, beq_iff_eq, not_and] at this
      exact this hcontra.2 hcontra.1
    unfold atMostOnePerPair at hap ⊢
    simp only [create_gallery_item, htid, htitle, hfind, hstatus, hdup]
    exact pairwise_pair_append _ _ hap (fun a ha => hnew a ha)

/-- A completed transformation row used by concrete witnesses. -/
def sampleTrans : TransRow :=
  { id := 7, user_id := 1, task_id := 5, status := TStatus.completed,
    error_message := none, result_url := some "u" }

/-- A private gallery row for sampleTrans used by concrete witnesses. -/
def sampleItem : GalleryRow :=
  { id := 3, user_id := 1, transformation_id := 7, title := "t",
    description := "", tags := "", is_public := false, share_token := none }

/-- A state in which user 1 already owns a gallery item for the completed
transformation 7. -/
def sampleState : GalleryState :=
  { transformations := [sampleTrans], items := [sampleItem] }

/-- The creation request duplicating the pair of sampleItem. -/
def sampleCreateReq : CreateGalleryReq :=
  { transformation_id := some 7, title := "again", description := "",
    tags := [], is_public := false }

/-- Witness for the C7 theorem at a concrete state: user 1 already owns a
gallery item for completed transformation 7, so creating another one
answers 409 and leaves the state unchanged. -/
theorem create_gallery_item_conflict_witness :
    create_gallery_item sampleState 1 sampleCreateReq 9 "tok" =
      (409, sampleState) :=
  (create_gallery_item_conflict sampleState 1 9 sampleCreateReq "tok").1
    7 sampleTrans rfl (by decide) (by decide) rfl
    ⟨sampleItem, by simp [sampleState], rfl, rfl⟩

/-- The share token is present exactly when the item is public. -/
def tokenMatchesPublic (it : GalleryRow) : Prop :=
  it.share_token.isSome = it.is_public

lemma applyGalleryUpdate_token (it : GalleryRow) (d : UpdateGalleryReq)
    (tok : String) (h : tokenMatchesPublic it) :
    tokenMatchesPublic (applyGalleryUpdate it d tok) := by
  rcases d with ⟨dt, dd, dtags, dp⟩
  unfold tokenMatchesPublic at h
  unfold applyGalleryUpdate tokenMatchesPublic
  rcases dp with _ | b
  · cases dt <;> cases dd <;> cases dtags <;> simpa using h
  · cases dt <;> cases dd <;> cases dtags <;>
      rcases b with _ | _ <;>
      rcases htok : it.share_token with _ | x <;>
      simp_all

/-- C8: if every gallery item satisfies the invariant that the share token
is present exactly when the item is public, then the invariant still holds
for every item after any create and after any update: creation generates a
token exactly when the new item is public, an update that sets is_public
supplies a token when turning the item public and clears it when turning
it private. -/
theorem gallery_token_iff_public (st : GalleryState) (uid fid gid : ℕ)
    (cdata : CreateGalleryReq) (udata : UpdateGalleryReq) (tok : String)
    (h : ∀ it ∈ st.items, tokenMatchesPublic it) :
    (∀ it ∈ (create_gallery_item st uid cdata fid tok).2.items,
      tokenMatchesPublic it) ∧
    (∀ it ∈ (update_gallery_item st uid gid udata tok).2.items,
      tokenMatchesPublic it) := by
  constructor
  · intro it hit
    unfold create_gallery_item at hit
    rcases htid : cdata.transformation_id with _ | tid
    · simp only [htid] at hit
      exact h it hit
    simp only [htid] at hit
    by_cases h1 : cdata.title = ""
    · simp only [if_pos h1] at hit
      exact h it hit
    simp only [if_neg h1] at hit
    rcases hfind : st.transformations.find?
        (fun r => r.id == tid && r.user_id == uid) with _ | t
    · simp only [hfind] at hit
      exact h it hit
    simp only [hfind] at hit
    by_cases h2 : t.status = TStatus.completed
    swap
    · simp only [if_pos (show t.status ≠ TStatus.completed from h2)] at hit
      exact h it hit
    simp only [if_neg (not_not_intro h2)] at hit
    by_cases h3 : (st.items.find? (fun x =>
        x.transformation_id == t.id && x.user_id == uid)).isSome = true
    · simp only [if_pos h3] at hit
      exact h it hit
    simp only [if_neg h3] at hit
    rcases List.mem_append.mp hit with hold | hnew
    · exact h it hold
    rw [List.mem_singleton] at hnew
    subst hnew
    unfold tokenMatchesPublic
    cases hp : cdata.is_public <;> simp [hp]
  · intro it hit
    unfold update_gallery_item at hit
    rcases hfind : st.items.find?
        (fun x => x.id == gid && x.user_id == uid) with _ | f
    · simp only [hfind] at hit
      exact h it hit
    simp only [hfind] at hit
    obtain ⟨orig, horig, heq⟩ := List.mem_map.mp hit
    subst heq
    by_cases hcond : (orig.id == gid && orig.user_id == uid) = true
    · rw [if_pos hcond]
      exact applyGalleryUpdate_token orig udata tok (h orig horig)
    · rw [if_neg hcond]
      exact h orig horig

/-- A private gallery row of user 1 for transformation 6, with no share
token: it satisfies the token-iff-public invariant non-trivially. -/
def wItem : GalleryRow :=
  { id := 3, user_id := 1, transformation_id := 6, title := "t",
    description := "", tags := "", is_public := false, share_token := none }

/-- State holding the completed transformation 7 and the private item
wItem (for the distinct transformation 6, so creation for 7 is not a
duplicate). -/
def wState : GalleryState :=
  { transformations := [sampleTrans], items := [wItem] }

/-- Creation request for transformation 7 that makes the new item public,
so a share token must be generated. -/
def wCreateReq : CreateGalleryReq :=
  { transformation_id := some 7, title := "new", description := "",
    tags := [], is_public := true }

/-- Update request that turns an item public, so a share token must be
supplied. -/
def wUpdateReq : UpdateGalleryReq :=
  { title := none, description := none, tags := none, is_public := some true }

/-- Witness for the C8 theorem at a state with one existing private item:
the creation takes the 201 branch and inserts a second, public item; the
update takes the 200 branch and turns the existing item public, supplying
the token some "tok"; the invariant holds for every resulting item. -/
theorem gallery_token_iff_public_witness :
    (create_gallery_item wState 1 wCreateReq 9 "tok").1 = 201 ∧
    (update_gallery_item wState 1 3 wUpdateReq "tok").1 = 200 ∧
    (update_gallery_item wState 1 3 wUpdateReq "tok").2.items =
      [{ wItem with is_public := true, share_token := some "tok" }] ∧
    (∀ it ∈ (create_gallery_item wState 1 wCreateReq 9 "tok").2.items,
      tokenMatchesPublic it) ∧
    (∀ it ∈ (update_gallery_item wState 1 3 wUpdateReq "tok").2.items,
      tokenMatchesPublic it) :=
  ⟨by decide, by decide, by decide,
   (gallery_token_iff_public wState 1 9 3 wCreateReq wUpdateReq "tok"
     (by intro it hit; simp only [wState, List.mem_singleton] at hit;
         subst hit; rfl)).1,
   (gallery_token_iff_public wState 1 9 3 wCreateReq wUpdateReq "tok"
     (by intro it hit; simp only [wState, List.mem_singleton] at hit;
         subst hit; rfl)).2⟩

/-! ## The orchestration task (C2, C4)

tasks/image_processing.py, process_image_task, embedded as a pure function
of an effect environment TaskFx holding the outcomes of its external
calls: the row found by the initial query, the clock readings, model
loading, image decoding, the memory probes, generation, upload, and
whether the commit inside the failure handler succeeds (the code wraps
that commit in its own try/except and only logs a failure).  Progress
emissions never raise, because emit_progress_update swallows its own
errors.  Validation runs the embedded validators on the actual task
arguments. -/

/-- Persisted fields of the Transformation row the task reads and writes. -/
structure TaskRec where
  status : TStatus
  started_at : Option ℤ
  completed_at : Option ℤ
  error_message : Option String
  processing_time : Option ℤ
  result_url : Option String
  result_filename : Option String
  gpu_memory_used : Option ℤ
  deriving DecidableEq, Repr

/-- One transformation_progress notification payload (status, message,
percent). -/
structure Emit where
  status : String
  message : String
  percent : ℕ
  deriving DecidableEq, Repr

/-- Arguments of the task together with the outcomes of its external
calls in one execution. -/
structure TaskFx where
  record0 : Option TaskRec
  prompt : List Char
  strength : ℚ
  guidance_scale : ℚ
  num_inference_steps : ℤ
  seed : Option ℤ
  model_name : String
  loadModelOk : Bool
  imageDecode : Except String Unit
  memBefore : Except String ℤ
  generated : Option Unit
  upload : Except String String
  memAfter : Except String ℤ
  tStart : ℤ
  tEnd : ℤ
  tFail : ℤ
  failPersistOk : Bool
  userTotal : ℕ
  deriving Repr

/-- Observable outcome of one task execution: the persisted row, the
emitted notifications in order, the returned status string, the message of
the exception the body raised (none when no phase raised), and the owning
user transformation counter. -/
structure TaskOut where
  record : Option TaskRec
  emits : List Emit
  retStatus : String
  raised : Option String
  userTotal : ℕ
  deriving DecidableEq, Repr

/-- The except-branch of process_image_task: re-read the row, mark it
failed with the error message and the partial processing time when a start
time was recorded, then commit (the commit may itself fail, in which case
the update is only logged and nothing is persisted), and finally emit the
failed notification with percent 0. -/
def failedRecord (fx : TaskFx) (cur : TaskRec) (msg : String) : TaskRec :=
  { cur with status := TStatus.failed,
             completed_at := some fx.tFail,
             error_message := some msg,
             processing_time := match cur.started_at with
               | some t0 => some (fx.tFail - t0)
               | none => cur.processing_time }

/-- The except-branch continued: persist the failed row when the commit
succeeds, then emit the failed notification. -/
def taskFail (fx : TaskFx) (cur : TaskRec) (ems : List Emit) (msg : String) :
    TaskOut :=
  let rec1 := if fx.failPersistOk then failedRecord fx cur msg else cur
  { record := some rec1
    emits := ems ++ [⟨"failed", "Transformation failed: " ++ msg, 0⟩]
    retStatus := "failed"
    raised := some msg
    userTotal := fx.userTotal }

/-- Embeds tasks/image_processing.py, process_image_task: find the row
(return early when missing), mark it processing with the start timestamp,
then run the five phases, emitting 10, 20, 30, 40, 80 and 100 percent
progress; any raising phase diverts to taskFail. -/
def process_image_task (fx : TaskFx) : TaskOut :=
  match fx.record0 with
  | none =>
      { record := none, emits := [], retStatus := "failed", raised := none,
        userTotal := fx.userTotal }
  | some rec0 =>
    let rec1 : TaskRec := { rec0 with status := TStatus.processing,
                                      started_at := some fx.tStart }
    let e1 : List Emit :=
      [⟨"processing", "Starting image transformation...", 10⟩]
    let pv := validate_prompt fx.prompt 1000
    if pv.1 = false then taskFail fx rec1 e1 ("Invalid prompt: " ++ pv.2)
    else
      let gv := validate_generation_parameters fx.strength fx.guidance_scale
        fx.num_inference_steps fx.seed
      if gv.1 = false then taskFail fx rec1 e1 ("Invalid parameters: " ++ gv.2)
      else
        let e2 := e1 ++ [⟨"processing", "Loading AI model...", 20⟩]
        if fx.loadModelOk = false then
          taskFail fx rec1 e2 ("Failed to load model: " ++ fx.model_name)
        else
          let e3 := e2 ++ [⟨"processing", "Preprocessing image...", 30⟩]
          match fx.imageDecode with
          | .error m => taskFail fx rec1 e3 m
          | .ok _ =>
            match fx.memBefore with
            | .error m => taskFail fx rec1 e3 m
            | .ok mb =>
              let e4 := e3 ++
                [⟨"processing", "Generating transformed image...", 40⟩]
              match fx.generated with
              | none => taskFail fx rec1 e4 "Image generation failed"
              | some _ =>
                let e5 := e4 ++ [⟨"processing", "Saving result...", 80⟩]
                match fx.upload with
                | .error m => taskFail fx rec1 e5 m
                | .ok url =>
                  match fx.memAfter with
                  | .error m => taskFail fx rec1 e5 m
                  | .ok ma =>
                    let rec2 : TaskRec :=
                      { rec1 with
                        status := TStatus.completed,
                        completed_at := some fx.tEnd,
                        result_filename := some "result.jpg",
                        result_url := some url,
                        processing_time := some (fx.tEnd - fx.tStart),
                        gpu_memory_used := some (ma - mb) }
                    let e6 := e5 ++
                      [⟨"completed",
                        "Transformation completed successfully!", 100⟩]
                    { record := some rec2, emits := e6,
                      retStatus := "completed", raised := none,
                      userTotal := fx.userTotal + 1 }

/-- The six progress notifications of a fully successful execution, in
phase order with non-decreasing percent. -/
def canonicalEmits : List Emit :=
  [⟨"processing", "Starting image transformation...", 10⟩,
   ⟨"processing", "Loading AI model...", 20⟩,
   ⟨"processing", "Preprocessing image...", 30⟩,
   ⟨"processing", "Generating transformed image...", 40⟩,
   ⟨"processing", "Saving result...", 80⟩,
   ⟨"completed", "Transformation completed successfully!", 100⟩]

/-- Consecutive percent values never decrease. -/
def percentsMonotone : List Emit → Bool
  | [] => true
  | [_] => true
  | a :: b :: rest => (a.percent ≤ b.percent) && percentsMonotone (b :: rest)

lemma taskFail_raised (fx : TaskFx) (cur : TaskRec) (ems : List Emit)
    (msg : String) : (taskFail fx cur ems msg).raised = some msg := rfl

lemma taskFail_emits (fx : TaskFx) (cur : TaskRec) (ems : List Emit)
    (msg : String) : (taskFail fx cur ems msg).emits =
      ems ++ [⟨"failed", "Transformation failed: " ++ msg, 0⟩] := rfl

lemma taskFail_spec (fx : TaskFx) (cur : TaskRec) (ems : List Emit)
    (msg : String) (hp : fx.failPersistOk = true) :
    ∃ r, (taskFail fx cur ems msg).record = some r ∧
      r.status = TStatus.failed ∧ r.error_message = some msg ∧
      (r.started_at.isSome → r.processing_time.isSome) ∧
      (taskFail fx cur ems msg).emits.getLast? =
        some ⟨"failed", "Transformation failed: " ++ msg, 0⟩ := by
  refine ⟨failedRecord fx cur msg, ?_, rfl, rfl, ?_, ?_⟩
  · simp [taskFail, hp]
  · cases hs : cur.started_at <;> simp [failedRecord, hs]
  · rw [taskFail_emits]
    exact List.getLast?_concat _

/-- Every execution either raises nothing and emits a prefix of the
canonical six notifications, or raises with some message after emitting
such a prefix and then diverts to the failure handler. -/
lemma process_image_task_shape (fx : TaskFx) :
    ((process_image_task fx).raised = none ∧
      ∃ k, (process_image_task fx).emits = canonicalEmits.take k) ∨
    (∃ rec0 k msg, fx.record0 = some rec0 ∧
      process_image_task fx =
        taskFail fx { rec0 with status := TStatus.processing,
                                started_at := some fx.tStart }
          (canonicalEmits.take k) msg) := by
  rcases hrec : fx.record0 with _ | rec0
  · exact Or.inl ⟨(by simp [process_image_task, hrec]),
      ⟨0, (by simp [process_image_task, hrec])⟩⟩
  by_cases hpv : (validate_prompt fx.prompt 1000).1 = false
  · exact Or.inr ⟨rec0, 1,
      "Invalid prompt: " ++ (validate_prompt fx.prompt 1000).2, rfl,
      (by simp [process_image_task, hrec, hpv, canonicalEmits])⟩
  by_cases hgv : (validate_generation_parameters fx.strength fx.guidance_scale
      fx.num_inference_steps fx.seed).1 = false
  · exact Or.inr ⟨rec0, 1,
      "Invalid parameters: " ++ (validate_generation_parameters fx.strength
        fx.guidance_scale fx.num_inference_steps fx.seed).2, rfl,
      (by simp [process_image_task, hrec, hpv, hgv, canonicalEmits])⟩
  by_cases hload : fx.loadModelOk = false
  · exact Or.inr ⟨rec0, 2, "Failed to load model: " ++ fx.model_name, rfl,
      (by simp [process_image_task, hrec, hpv, hgv, hload, canonicalEmits])⟩
  rcases hdec : fx.imageDecode with m | u
  · exact Or.inr ⟨rec0, 3, m, rfl,
      (by simp [process_image_task, hrec, hpv, hgv, hload, hdec,
        canonicalEmits])⟩
  rcases hmb : fx.memBefore with m | mb
  · exact Or.inr ⟨rec0, 3, m, rfl,
      (by simp [process_image_task, hrec, hpv, hgv, hload, hdec, hmb,
        canonicalEmits])⟩
  rcases hgen : fx.generated with _ | u2
  · exact Or.inr ⟨rec0, 4, "Image generation failed", rfl,
      (by simp [process_image_task, hrec, hpv, hgv, hload, hdec, hmb, hgen,
        canonicalEmits])⟩
  rcases hup : fx.upload with m | url
  · exact Or.inr ⟨rec0, 5, m, rfl,
      (by simp [process_image_task, hrec, hpv, hgv, hload, hdec, hmb, hgen,
        hup, canonicalEmits])⟩
  rcases hma : fx.memAfter with m | ma
  · exact Or.inr ⟨rec0, 5, m, rfl,
      (by simp [process_image_task, hrec, hpv, hgv, hload, hdec, hmb, hgen,
        hup, hma, canonicalEmits])⟩
  · exact Or.inl ⟨(by simp [process_image_task, hrec, hpv, hgv, hload, hdec,
        hmb, hgen, hup, hma]),
      ⟨6, (by simp [process_image_task, hrec, hpv, hgv, hload, hdec, hmb,
        hgen, hup, hma, canonicalEmits])⟩⟩

lemma percentsMonotone_take (k : ℕ) :
    percentsMonotone (canonicalEmits.take k) = true := by
  match k with
  | 0 => decide
  | 1 => decide
  | 2 => decide
  | 3 => decide
  | 4 => decide
  | 5 => decide
  | n + 6 =>
      rw [List.take_of_length_le (by simp [canonicalEmits])]
      decide

/-- A fresh pending row, as created by the upload route. -/
def pendingRec : TaskRec :=
  { status := TStatus.pending, started_at := none, completed_at := none,
    error_message := none, processing_time := none, result_url := none,
    result_filename := none, gpu_memory_used := none }

/-- An execution whose prompt validation raises and whose failure-handler
commit fails: every other phase would have succeeded. -/
def badPromptNoPersistFx : TaskFx :=
  { record0 := some pendingRec, prompt := [], strength := 8/10,
    guidance_scale := 15/2, num_inference_steps := 20, seed := none,
    model_name := "stable-diffusion-v1-5", loadModelOk := true,
    imageDecode := Except.ok (), memBefore := Except.ok 0,
    generated := some (), upload := Except.ok "u", memAfter := Except.ok 0,
    tStart := 0, tEnd := 1, tFail := 1, failPersistOk := false,
    userTotal := 0 }

/-- The same failing execution with a working failure-handler commit. -/
def badPromptPersistFx : TaskFx :=
  { badPromptNoPersistFx with failPersistOk := true }

/-- C2 counterexample: it is not the case that every execution in which a
phase raises persists the failed status: when the status-update commit in
the failure handler itself fails (image_processing.py:150-153 swallows
that error), the persisted record still reads processing, even though the
failed notification with percent 0 is emitted.  The concrete refutation is
an execution with an invalid (empty) prompt and a failing handler
commit. -/
theorem task_failure_not_always_persisted :
    ¬ (∀ (fx : TaskFx) (msg : String),
        (process_image_task fx).raised = some msg →
        ∃ r, (process_image_task fx).record = some r ∧
          r.status = TStatus.failed ∧ r.error_message = some msg ∧
          (r.started_at.isSome → r.processing_time.isSome) ∧
          (process_image_task fx).emits.getLast? =
            some ⟨"failed", "Transformation failed: " ++ msg, 0⟩) := by
  intro H
  obtain ⟨r, hrec, hst, -, -, -⟩ :=
    H badPromptNoPersistFx "Invalid prompt: Prompt cannot be empty" (by decide)
  have hval : (process_image_task badPromptNoPersistFx).record =
      some { pendingRec with status := TStatus.processing,
                             started_at := some 0 } := by decide
  rw [hval] at hrec
  cases Option.some.inj hrec
  exact absurd hst (by decide)

/-- C2 amended: whenever any phase raises and the failure-handler commit
succeeds, the task persists the failed status with the raised message as
error_message, records the partial processing time whenever a start time
was recorded, and ends its notifications with a failed notification of
percent 0. -/
theorem task_failure_recorded (fx : TaskFx) (msg : String)
    (hp : fx.failPersistOk = true)
    (hr : (process_image_task fx).raised = some msg) :
    ∃ r, (process_image_task fx).record = some r ∧
      r.status = TStatus.failed ∧ r.error_message = some msg ∧
      (r.started_at.isSome → r.processing_time.isSome) ∧
      (process_image_task fx).emits.getLast? =
        some ⟨"failed", "Transformation failed: " ++ msg, 0⟩ := by
  rcases process_image_task_shape fx with ⟨hn, -⟩ | ⟨rec0, k, m, -, heq⟩
  · rw [hn] at hr; cases hr
  · rw [heq] at hr ⊢
    rw [taskFail_raised] at hr
    cases Option.some.inj hr
    exact taskFail_spec fx _ _ msg hp

/-- Witness for the amended C2 theorem: the invalid-prompt execution with
a working failure-handler commit persists the failed row. -/
theorem task_failure_recorded_witness :
    ∃ r, (process_image_task badPromptPersistFx).record = some r ∧
      r.status = TStatus.failed ∧
      r.error_message = some "Invalid prompt: Prompt cannot be empty" ∧
      (r.started_at.isSome → r.processing_time.isSome) ∧
      (process_image_task badPromptPersistFx).emits.getLast? =
        some ⟨"failed",
          "Transformation failed: Invalid prompt: Prompt cannot be empty",
          0⟩ :=
  task_failure_recorded badPromptPersistFx
    "Invalid prompt: Prompt cannot be empty" rfl (by decide)

/-- C4 counterexample: percent values within one execution are not always
non-decreasing: an execution that emits the 10 percent notification and
then raises appends a failed notification with percent 0, a strict
drop. -/
theorem progress_percent_drops_on_failure :
    percentsMonotone (process_image_task badPromptNoPersistFx).emits =
      false := by decide

/-- C4 amended: within one execution the processing and completed
notifications form a prefix of the canonical phase-ordered sequence with
percents 10, 20, 30, 40, 80, 100 (hence non-decreasing); an execution
whose body raises additionally appends one final failed notification with
percent 0, which drops below any earlier percent. -/
theorem progress_emissions_shape (fx : TaskFx) :
    ∃ k, percentsMonotone (canonicalEmits.take k) = true ∧
      (((process_image_task fx).raised = none ∧
        (process_image_task fx).emits = canonicalEmits.take k) ∨
       (∃ m, (process_image_task fx).raised = some m ∧
        (process_image_task fx).emits = canonicalEmits.take k ++
          [⟨"failed", "Transformation failed: " ++ m, 0⟩])) := by
  rcases process_image_task_shape fx with ⟨hn, k, he⟩ | ⟨rec0, k, m, -, heq⟩
  · exact ⟨k, percentsMonotone_take k, Or.inl ⟨hn, he⟩⟩
  · refine ⟨k, percentsMonotone_take k, Or.inr ⟨m, ?_, ?_⟩⟩
    · rw [heq, taskFail_raised]
    · rw [heq, taskFail_emits]

/-! ## Generation-adapter preprocessing (C5)

services/diffusion_service.py, preprocess_image: thumbnail to at most
max_size on the largest side (PIL Image.thumbnail: shrink only, preserving
aspect ratio, rounding the recomputed dimension to the neighbouring
integer closest in ratio and clamping it to at least 1), then truncate
both dimensions down to the nearest multiple of 8.  The geometry is
embedded over exact rationals; only the dimensions matter, the pixel
resampling and the RGB conversion do not change them. -/

/-- PIL round_aspect for the width branch of thumbnail: choose between
floor and ceiling of the ideal width by which gives the ratio closest to
the aspect, preferring floor on ties, clamped to at least 1. -/
def round_aspect_x (ideal aspect : ℚ) (y : ℕ) : ℕ :=
  (max (if |aspect - (⌊ideal⌋ : ℚ) / (y : ℚ)| ≤
           |aspect - (⌈ideal⌉ : ℚ) / (y : ℚ)|
        then ⌊ideal⌋ else ⌈ideal⌉) 1).toNat

/-- PIL round_aspect for the height branch of thumbnail, whose key maps 0
to 0 to avoid dividing by zero. -/
def round_aspect_y (ideal aspect : ℚ) (x : ℕ) : ℕ :=
  (max (if (if ⌊ideal⌋ = 0 then (0 : ℚ)
            else |aspect - (x : ℚ) / (⌊ideal⌋ : ℚ)|) ≤
           (if ⌈ideal⌉ = 0 then (0 : ℚ)
            else |aspect - (x : ℚ) / (⌈ideal⌉ : ℚ)|)
        then ⌊ideal⌋ else ⌈ideal⌉) 1).toNat

/-- Dimension computation of PIL Image.thumbnail((maxs, maxs)): no change
when the image already fits, otherwise shrink the larger side to maxs and
round the other to preserve the aspect ratio. -/
def pilThumbnail (w h maxs : ℕ) : ℕ × ℕ :=
  if maxs ≥ w ∧ maxs ≥ h then (w, h)
  else if (maxs : ℚ) / (maxs : ℚ) ≥ (w : ℚ) / (h : ℚ) then
    (round_aspect_x ((maxs : ℚ) * ((w : ℚ) / (h : ℚ)))
      ((w : ℚ) / (h : ℚ)) maxs, maxs)
  else
    (maxs, round_aspect_y ((maxs : ℚ) / ((w : ℚ) / (h : ℚ)))
      ((w : ℚ) / (h : ℚ)) maxs)

/-- Embeds services/diffusion_service.py, preprocess_image (dimensions):
thumbnail to max_size, then truncate both dimensions down to the nearest
multiple of 8. -/
def preprocess_image (w h : ℕ) (max_size : ℕ := 1024) : ℕ × ℕ :=
  let wh := pilThumbnail w h max_size
  (8 * (wh.1 / 8), 8 * (wh.2 / 8))

/-- The pair (w1, h1) preserves the aspect ratio of (w, h) within one unit
of rounding: one dimension is within one pixel of the value exact
preservation dictates for the other (equivalently, the cross difference is
at most the larger input dimension). -/
def aspectWithinOne (w h w1 h1 : ℕ) : Prop :=
  |(w1 : ℚ) * (h : ℚ) - (h1 : ℚ) * (w : ℚ)| ≤ ((max w h : ℕ) : ℚ)

lemma round_aspect_x_cases (ideal aspect : ℚ) (y : ℕ) :
    ∃ p : ℤ, (p = ⌊ideal⌋ ∨ p = ⌈ideal⌉) ∧
      round_aspect_x ideal aspect y = (max p 1).toNat := by
  unfold round_aspect_x
  by_cases hk : |aspect - (⌊ideal⌋ : ℚ) / (y : ℚ)| ≤
      |aspect - (⌈ideal⌉ : ℚ) / (y : ℚ)|
  · exact ⟨⌊ideal⌋, Or.inl rfl, by rw [if_pos hk]⟩
  · exact ⟨⌈ideal⌉, Or.inr rfl, by rw [if_neg hk]⟩

lemma round_aspect_y_cases (ideal aspect : ℚ) (x : ℕ) :
    ∃ p : ℤ, (p = ⌊ideal⌋ ∨ p = ⌈ideal⌉) ∧
      round_aspect_y ideal aspect x = (max p 1).toNat := by
  unfold round_aspect_y
  by_cases hk : (if ⌊ideal⌋ = 0 then (0 : ℚ)
      else |aspect - (x : ℚ) / (⌊ideal⌋ : ℚ)|) ≤
      (if ⌈ideal⌉ = 0 then (0 : ℚ)
      else |aspect - (x : ℚ) / (⌈ideal⌉ : ℚ)|)
  · exact ⟨⌊ideal⌋, Or.inl rfl, by rw [if_pos hk]⟩
  · exact ⟨⌈ideal⌉, Or.inr rfl, by rw [if_neg hk]⟩

lemma clamp_close (ideal : ℚ) (hpos : 0 < ideal) (p : ℤ)
    (hp : p = ⌊ideal⌋ ∨ p = ⌈ideal⌉) :
    |(((max p 1).toNat : ℕ) : ℚ) - ideal| ≤ 1 := by
  have hnn : (0 : ℤ) ≤ max p 1 := le_trans zero_le_one (le_max_right p 1)
  have hv : (((max p 1).toNat : ℕ) : ℚ) = ((max p 1 : ℤ) : ℚ) := by
    exact_mod_cast congrArg (fun z : ℤ => (z : ℚ)) (Int.toNat_of_nonneg hnn)
  rw [hv]
  have hfl : (⌊ideal⌋ : ℚ) ≤ ideal := Int.floor_le ideal
  have hfl2 : ideal < (⌊ideal⌋ : ℚ) + 1 := Int.lt_floor_add_one ideal
  have hcl : ideal ≤ (⌈ideal⌉ : ℚ) := Int.le_ceil ideal
  have hcl2 : (⌈ideal⌉ : ℚ) < ideal + 1 := Int.ceil_lt_add_one ideal
  have hc1 : (1 : ℤ) ≤ ⌈ideal⌉ := Int.ceil_pos.mpr hpos
  rcases hp with rfl | rfl
  · by_cases hf : (1 : ℤ) ≤ ⌊ideal⌋
    · rw [max_eq_left hf, abs_le]
      constructor <;> linarith
    · rw [max_eq_right (by omega : ⌊ideal⌋ ≤ 1), abs_le]
      have hle0 : (⌊ideal⌋ : ℚ) + 1 ≤ 1 := by
        have : ⌊ideal⌋ + 1 ≤ 1 := by omega
        exact_mod_cast this
      push_cast
      constructor <;> linarith
  · rw [max_eq_left hc1, abs_le]
    constructor <;> linarith

lemma clamp_le (ideal : ℚ) (B : ℕ) (hB : 1 ≤ B) (hle : ideal ≤ (B : ℚ))
    (p : ℤ) (hp : p = ⌊ideal⌋ ∨ p = ⌈ideal⌉) : (max p 1).toNat ≤ B := by
  have hpB : p ≤ (B : ℤ) := by
    rcases hp with rfl | rfl
    · have := Int.floor_le_floor hle
      rwa [Int.floor_natCast] at this
    · exact Int.ceil_le.mpr (by exact_mod_cast hle)
  have hBz : (1 : ℤ) ≤ (B : ℤ) := by exact_mod_cast hB
  omega

lemma pilThumbnail_spec (w h : ℕ) (hw : 1 ≤ w) (hh : 1 ≤ h) :
    (pilThumbnail w h 1024).1 ≤ 1024 ∧ (pilThumbnail w h 1024).2 ≤ 1024 ∧
    aspectWithinOne w h (pilThumbnail w h 1024).1
      (pilThumbnail w h 1024).2 := by
  have hw0 : (0 : ℚ) < w := by exact_mod_cast hw
  have hh0 : (0 : ℚ) < h := by exact_mod_cast hh
  have hhne : (h : ℚ) ≠ 0 := ne_of_gt hh0
  have hwne : (w : ℚ) ≠ 0 := ne_of_gt hw0
  have haspect : (0 : ℚ) < (w : ℚ) / h := div_pos hw0 hh0
  have hmaxwh : ((h : ℚ)) ≤ ((max w h : ℕ) : ℚ) := by
    exact_mod_cast le_max_right w h
  have hmaxwh2 : ((w : ℚ)) ≤ ((max w h : ℕ) : ℚ) := by
    exact_mod_cast le_max_left w h
  unfold pilThumbnail
  split_ifs with hno hb
  · refine ⟨hno.1, hno.2, ?_⟩
    show |(w : ℚ) * h - (h : ℚ) * w| ≤ ((max w h : ℕ) : ℚ)
    have hz : (w : ℚ) * h - (h : ℚ) * w = 0 := by ring
    rw [hz, abs_zero]
    positivity
  · -- width rounded, height fixed at 1024
    have haspect1 : (w : ℚ) / h ≤ 1 := by
      have h1024 : ((1024 : ℕ) : ℚ) / ((1024 : ℕ) : ℚ) = 1 := by norm_num
      rw [h1024] at hb
      exact hb
    obtain ⟨p, hp, hval⟩ := round_aspect_x_cases
      (((1024 : ℕ) : ℚ) * ((w : ℚ) / h)) ((w : ℚ) / h) 1024
    rw [hval]
    have hpos : (0 : ℚ) < ((1024 : ℕ) : ℚ) * ((w : ℚ) / h) := by
      apply mul_pos _ haspect
      norm_num
    have hle : ((1024 : ℕ) : ℚ) * ((w : ℚ) / h) ≤ ((1024 : ℕ) : ℚ) :=
      mul_le_of_le_one_right (by norm_num) haspect1
    have hclose := clamp_close _ hpos p hp
    refine ⟨clamp_le _ 1024 (by norm_num) hle p hp, le_refl _, ?_⟩
    show |(((max p 1).toNat : ℕ) : ℚ) * h - ((1024 : ℕ) : ℚ) * w| ≤
      ((max w h : ℕ) : ℚ)
    have expand : ((((max p 1).toNat : ℕ) : ℚ) -
        ((1024 : ℕ) : ℚ) * ((w : ℚ) / h)) * (h : ℚ) =
        (((max p 1).toNat : ℕ) : ℚ) * h - ((1024 : ℕ) : ℚ) * w := by
      field_simp
    calc |(((max p 1).toNat : ℕ) : ℚ) * h - ((1024 : ℕ) : ℚ) * w|
        = |(((max p 1).toNat : ℕ) : ℚ) -
            ((1024 : ℕ) : ℚ) * ((w : ℚ) / h)| * |(h : ℚ)| := by
          rw [← expand, abs_mul]
      _ = |(((max p 1).toNat : ℕ) : ℚ) -
            ((1024 : ℕ) : ℚ) * ((w : ℚ) / h)| * (h : ℚ) := by
          rw [abs_of_nonneg hh0.le]
      _ ≤ 1 * (h : ℚ) := mul_le_mul_of_nonneg_right hclose hh0.le
      _ = (h : ℚ) := one_mul _
      _ ≤ ((max w h : ℕ) : ℚ) := hmaxwh
  · -- height rounded, width fixed at 1024
    have haspect1 : 1 < (w : ℚ) / h := by
      have h1024 : ((1024 : ℕ) : ℚ) / ((1024 : ℕ) : ℚ) = 1 := by norm_num
      rw [h1024] at hb
      exact lt_of_not_ge hb
    obtain ⟨p, hp, hval⟩ := round_aspect_y_cases
      (((1024 : ℕ) : ℚ) / ((w : ℚ) / h)) ((w : ℚ) / h) 1024
    rw [hval]
    have hpos : (0 : ℚ) < ((1024 : ℕ) : ℚ) / ((w : ℚ) / h) := by
      apply div_pos _ haspect
      norm_num
    have hle : ((1024 : ℕ) : ℚ) / ((w : ℚ) / h) ≤ ((1024 : ℕ) : ℚ) :=
      div_le_self (by norm_num) haspect1.le
    have hclose := clamp_close _ hpos p hp
    refine ⟨le_refl _, clamp_le _ 1024 (by norm_num) hle p hp, ?_⟩
    show |((1024 : ℕ) : ℚ) * h - (((max p 1).toNat : ℕ) : ℚ) * w| ≤
      ((max w h : ℕ) : ℚ)
    have expand : ((((max p 1).toNat : ℕ) : ℚ) -
        ((1024 : ℕ) : ℚ) / ((w : ℚ) / h)) * (w : ℚ) =
        (((max p 1).toNat : ℕ) : ℚ) * w - ((1024 : ℕ) : ℚ) * h := by
      field_simp
    calc |((1024 : ℕ) : ℚ) * h - (((max p 1).toNat : ℕ) : ℚ) * w|
        = |(((max p 1).toNat : ℕ) : ℚ) * w - ((1024 : ℕ) : ℚ) * h| :=
          abs_sub_comm _ _
      _ = |(((max p 1).toNat : ℕ) : ℚ) -
            ((1024 : ℕ) : ℚ) / ((w : ℚ) / h)| * |(w : ℚ)| := by
          rw [← expand, abs_mul]
      _ = |(((max p 1).toNat : ℕ) : ℚ) -
            ((1024 : ℕ) : ℚ) / ((w : ℚ) / h)| * (w : ℚ) := by
          rw [abs_of_nonneg hw0.le]
      _ ≤ 1 * (w : ℚ) := mul_le_mul_of_nonneg_right hclose hw0.le
      _ = (w : ℚ) := one_mul _
      _ ≤ ((max w h : ℕ) : ℚ) := hmaxwh2

/-- C5 counterexample: the 1008 by 15 input (width differs from height)
passes the thumbnail step unchanged, and the truncation to multiples of 8
lowers the height from 15 to 8 — seven pixels — so the output dimensions
(1008, 8) do not preserve the aspect ratio within one unit of rounding. -/
theorem preprocess_aspect_counterexample :
    preprocess_image 1008 15 1024 = (1008, 8) ∧
    ¬ aspectWithinOne 1008 15 (preprocess_image 1008 15 1024).1
      (preprocess_image 1008 15 1024).2 := by
  have hval : preprocess_image 1008 15 1024 = (1008, 8) := by
    unfold preprocess_image pilThumbnail
    norm_num
  refine ⟨hval, ?_⟩
  rw [hval]
  unfold aspectWithinOne
  intro habs
  have hmax : (max 1008 15 : ℕ) = 1008 := by norm_num
  rw [hmax] at habs
  norm_num at habs

/-- C5 amended: for every input with positive dimensions and width not
equal to height, preprocessing returns dimensions that are multiples of 8
with each side at most the configured maximum of 1024; the thumbnail step
preserves the aspect ratio within one unit of rounding, and the final
truncation lowers each thumbnail dimension by at most 7 pixels, so the
output preserves the ratio only within one unit of the rounding
granularity 8, not within one pixel. -/
theorem preprocess_image_spec (w h : ℕ) (hw : 1 ≤ w) (hh : 1 ≤ h)
    (hne : w ≠ h) :
    8 ∣ (preprocess_image w h 1024).1 ∧ 8 ∣ (preprocess_image w h 1024).2 ∧
    (preprocess_image w h 1024).1 ≤ 1024 ∧
    (preprocess_image w h 1024).2 ≤ 1024 ∧
    aspectWithinOne w h (pilThumbnail w h 1024).1
      (pilThumbnail w h 1024).2 ∧
    (preprocess_image w h 1024).1 ≤ (pilThumbnail w h 1024).1 ∧
    (pilThumbnail w h 1024).1 < (preprocess_image w h 1024).1 + 8 ∧
    (preprocess_image w h 1024).2 ≤ (pilThumbnail w h 1024).2 ∧
    (pilThumbnail w h 1024).2 < (preprocess_image w h 1024).2 + 8 := by
  obtain ⟨hb1, hb2, hasp⟩ := pilThumbnail_spec w h hw hh
  have e1 : (preprocess_image w h 1024).1 =
      8 * ((pilThumbnail w h 1024).1 / 8) := rfl
  have e2 : (preprocess_image w h 1024).2 =
      8 * ((pilThumbnail w h 1024).2 / 8) := rfl
  rw [e1, e2]
  have da := Nat.div_add_mod (pilThumbnail w h 1024).1 8
  have ma := Nat.mod_lt (pilThumbnail w h 1024).1 (show 0 < 8 by norm_num)
  have db := Nat.div_add_mod (pilThumbnail w h 1024).2 8
  have mb := Nat.mod_lt (pilThumbnail w h 1024).2 (show 0 < 8 by norm_num)
  refine ⟨⟨_, rfl⟩, ⟨_, rfl⟩, ?_, ?_, hasp, ?_, ?_, ?_, ?_⟩ <;> omega

/-- Witness for the amended C5 theorem at the concrete 1008 by 15 input. -/
theorem preprocess_image_spec_witness :
    8 ∣ (preprocess_image 1008 15 1024).1 ∧
    8 ∣ (preprocess_image 1008 15 1024).2 ∧
    (preprocess_image 1008 15 1024).1 ≤ 1024 ∧
    (preprocess_image 1008 15 1024).2 ≤ 1024 ∧
    aspectWithinOne 1008 15 (pilThumbnail 1008 15 1024).1
      (pilThumbnail 1008 15 1024).2 ∧
    (preprocess_image 1008 15 1024).1 ≤ (pilThumbnail 1008 15 1024).1 ∧
    (pilThumbnail 1008 15 1024).1 < (preprocess_image 1008 15 1024).1 + 8 ∧
    (preprocess_image 1008 15 1024).2 ≤ (pilThumbnail 1008 15 1024).2 ∧
    (pilThumbnail 1008 15 1024).2 < (preprocess_image 1008 15 1024).2 + 8 :=
  preprocess_image_spec 1008 15 (by norm_num) (by norm_num) (by norm_num)

/-! ## Generation adapter failure handling (C9)

services/diffusion_service.py, generate_image: the whole body sits inside
a try/except that catches every exception, cleans accelerator memory when
on CUDA, and returns None; the early return when load_model fails performs
no cleanup.  The environment GenFx supplies the outcome of each external
call; an image is an abstract handle. -/

/-- An abstract image handle. -/
abbrev Img := ℕ

/-- Outcomes of the optional ControlNet branch: whether load_controlnet
succeeds, whether a preprocessor is registered (with the outcome of the
control-image computation), and the ControlNet pipeline call. -/
structure CtrlFx where
  loadOk : Bool
  pre : Option (Except String Img)
  pipeRun : Except String Img
  deriving Repr

/-- Outcomes of the external calls of one generate_image invocation. -/
structure GenFx where
  cuda : Bool
  loadOk : Bool
  seed : Option ℤ
  ctrl : Option CtrlFx
  pipeRun : Except String Img
  deriving Repr

/-- The observable outcome: the returned value (None encodes failure) and
whether accelerator memory was released during the call. -/
structure GenOut where
  result : Option Img
  cleaned : Bool
  deriving DecidableEq, Repr

/-- The body of generate_image before the catch-all handler: early None on
model-load failure (without cleanup), then preprocessing and seeding
(pure), then the selected pipeline invocation, whose exception propagates;
on success memory is cleaned when on CUDA. -/
def generate_image_body (fx : GenFx) : Except String GenOut :=
  if fx.loadOk = false then Except.ok { result := none, cleaned := false }
  else
    let run : Except String Img :=
      match fx.ctrl with
      | some c =>
        if c.loadOk then
          match c.pre with
          | some pre =>
            match pre with
            | Except.error e => Except.error e
            | Except.ok _ => c.pipeRun
          | none => fx.pipeRun
        else fx.pipeRun
      | none => fx.pipeRun
    match run with
    | Except.error e => Except.error e
    | Except.ok img => Except.ok { result := some img, cleaned := fx.cuda }

/-- Embeds generate_image: the catch-all handler turns any raised
exception into a None return after cleaning accelerator memory on CUDA;
the raised message is only logged, not returned. -/
def generate_image (fx : GenFx) : GenOut :=
  match generate_image_body fx with
  | Except.ok out => out
  | Except.error _ => { result := none, cleaned := fx.cuda }

/-- The plain backend invocation (no ControlNet) raises with message m
after a successful model load. -/
def backendRaises (fx : GenFx) (m : String) : Prop :=
  fx.loadOk = true ∧ fx.ctrl = none ∧ fx.pipeRun = Except.error m

/-- An invocation whose backend call raises with message m. -/
def genErrFx (m : String) : GenFx :=
  { cuda := false, loadOk := true, seed := none, ctrl := none,
    pipeRun := Except.error m }

/-- A CUDA invocation whose model load fails. -/
def genLoadFailCudaFx : GenFx :=
  { cuda := true, loadOk := false, seed := none, ctrl := none,
    pipeRun := Except.ok 0 }

/-- A CUDA invocation that succeeds with image 7. -/
def genOkFx : GenFx :=
  { cuda := true, loadOk := true, seed := none, ctrl := none,
    pipeRun := Except.ok 7 }

/-- C9 counterexample: the failure value returned by generate_image does
not carry the underlying error message — no extraction function can
recover it, because invocations raising distinct messages return the same
None — and the early return on model-load failure releases no accelerator
memory even on CUDA, although it is a failure path. -/
theorem generate_error_message_lost :
    (¬ ∃ extract : Option Img → Option String,
        ∀ (fx : GenFx) (m : String), backendRaises fx m →
          extract (generate_image fx).result = some m) ∧
    (generate_image genLoadFailCudaFx).result = none ∧
    genLoadFailCudaFx.cuda = true ∧
    (generate_image genLoadFailCudaFx).cleaned = false := by
  refine ⟨?_, rfl, rfl, rfl⟩
  rintro ⟨extract, hex⟩
  have h1 := hex (genErrFx "CUDA out of memory") "CUDA out of memory"
    ⟨rfl, rfl, rfl⟩
  have h2 := hex (genErrFx "model weights corrupted") "model weights corrupted"
    ⟨rfl, rfl, rfl⟩
  have e1 : (generate_image (genErrFx "CUDA out of memory")).result = none := rfl
  have e2 : (generate_image (genErrFx "model weights corrupted")).result =
      none := rfl
  rw [e1] at h1
  rw [e2] at h2
  rw [h1] at h2
  exact absurd (Option.some.inj h2) (by decide)

/-- C9 amended: every exception raised inside the body is caught — the
call returns None with accelerator memory released on CUDA, but the
message is only logged, so the caller cannot recover it; a successful run
returns the generated image, also releasing memory; only the early return
on model-load failure performs no release. -/
theorem generate_image_failure_behavior :
    (∀ (fx : GenFx) (e : String), generate_image_body fx = Except.error e →
      generate_image fx = { result := none, cleaned := fx.cuda }) ∧
    (∀ (fx : GenFx) (m : String), backendRaises fx m →
      generate_image fx = { result := none, cleaned := fx.cuda }) ∧
    (∀ (fx : GenFx) (i : Img), fx.loadOk = true → fx.ctrl = none →
      fx.pipeRun = Except.ok i →
      generate_image fx = { result := some i, cleaned := fx.cuda }) ∧
    (∀ fx : GenFx, fx.loadOk = false →
      generate_image fx = { result := none, cleaned := false }) := by
  refine ⟨?_, ?_, ?_, ?_⟩
  · intro fx e he
    unfold generate_image
    rw [he]
  · intro fx m hm
    obtain ⟨h1, h2, h3⟩ := hm
    simp [generate_image, generate_image_body, h1, h2, h3]
  · intro fx i h1 h2 h3
    simp [generate_image, generate_image_body, h1, h2, h3]
  · intro fx h
    simp [generate_image, generate_image_body, h]

/-- Witness for the amended C9 theorem at concrete invocations: a raising
backend call yields None, a load failure yields None without cleanup, and
a successful call returns the image with cleanup. -/
theorem generate_image_failure_behavior_witness :
    generate_image (genErrFx "CUDA out of memory") =
      { result := none, cleaned := false } ∧
    generate_image genLoadFailCudaFx = { result := none, cleaned := false } ∧
    generate_image genOkFx = { result := some 7, cleaned := true } :=
  ⟨generate_image_failure_behavior.2.1 (genErrFx "CUDA out of memory")
      "CUDA out of memory" ⟨rfl, rfl, rfl⟩,
   generate_image_failure_behavior.2.2.2 genLoadFailCudaFx rfl,
   generate_image_failure_behavior.2.2.1 genOkFx 7 rfl rfl rfl⟩

/-! ## validate_image totality (C10)

utils/validators.py, validate_image: every step of the body sits inside an
outer try/except returning (False, "File validation failed"), with an
inner try/except around image decoding and the dimension checks returning
(False, "Invalid image file or corrupted data").  Each fallible primitive
of the file object and the environment is an Except value whose error
propagates exactly as a Python exception would; interpolated size numbers
in the messages are abbreviated to their fixed prefixes. -/

/-- Outcomes of the fallible primitives one validate_image call uses. -/
structure FileFx where
  seekEndTell : Except String ℕ
  seekReset1 : Except String Unit
  maxContentEnv : Except String ℕ
  openVerify : Except String Unit
  seekReset2 : Except String Unit
  reopenDims : Except String (ℕ × ℕ)
  maxImageEnv : Except String ℕ
  seekReset3 : Except String Unit
  deriving Repr

/-- The inner try body: decode and verify the image, re-open it, check
minimum and maximum dimensions and the 4:1 aspect-ratio bound, reset the
read position. -/
def validate_image_inner (fx : FileFx) : Except String (Bool × String) :=
  match fx.openVerify with
  | Except.error e => Except.error e
  | Except.ok _ =>
    match fx.seekReset2 with
    | Except.error e => Except.error e
    | Except.ok _ =>
      match fx.reopenDims with
      | Except.error e => Except.error e
      | Except.ok wh =>
        if wh.1 < 64 ∨ wh.2 < 64 then
          Except.ok (false, "Image too small. Minimum size is 64x64px")
        else
          match fx.maxImageEnv with
          | Except.error e => Except.error e
          | Except.ok max_image_size =>
            if wh.1 > max_image_size ∨ wh.2 > max_image_size then
              Except.ok (false, "Image too large")
            else if ((max wh.1 wh.2 : ℕ) : ℚ) /
                ((min wh.1 wh.2 : ℕ) : ℚ) > 4 then
              Except.ok (false,
                "Image aspect ratio too extreme. Maximum ratio is 4:1")
            else
              match fx.seekReset3 with
              | Except.error e => Except.error e
              | Except.ok _ => Except.ok (true, "Valid image")

/-- The outer try body: measure the file size, check the configured
maximum and emptiness, then run the inner try, whose exceptions map to the
corrupted-data message. -/
def validate_image_body (fx : FileFx) : Except String (Bool × String) :=
  match fx.seekEndTell with
  | Except.error e => Except.error e
  | Except.ok size =>
    match fx.seekReset1 with
    | Except.error e => Except.error e
    | Except.ok _ =>
      match fx.maxContentEnv with
      | Except.error e => Except.error e
      | Except.ok max_size =>
        if size > max_size then
          Except.ok (false, "File size too large")
        else if size = 0 then
          Except.ok (false, "File is empty")
        else
          match validate_image_inner fx with
          | Except.ok r => Except.ok r
          | Except.error _ =>
              Except.ok (false, "Invalid image file or corrupted data")

/-- Embeds validate_image: the outer except clause converts any remaining
exception into the (False, "File validation failed") return. -/
def validate_image (fx : FileFx) : Except String (Bool × String) :=
  match validate_image_body fx with
  | Except.ok r => Except.ok r
  | Except.error _ => Except.ok (false, "File validation failed")

/-- C10: validate_image is total at its interface: whatever each fallible
primitive does — including undecodable content and primitives that raise —
the call returns a (Bool, message) pair and never propagates an
exception. -/
theorem validate_image_total (fx : FileFx) :
    ∃ p : Bool × String, validate_image fx = Except.ok p := by
  unfold validate_image
  rcases h : validate_image_body fx with e | r
  · exact ⟨(false, "File validation failed"), rfl⟩
  · exact ⟨r, rfl⟩
